import Mathlib

/-!
Shallow embedding of `egui-glyphon` (`src/lib.rs`), an adapter gluing the
`glyphon` text-shaping library into `egui`'s wgpu render callbacks.

Numeric model: Rust `f32` values are modelled as exact rationals (`ℚ`);
the properties verified here (max/min clamping, uniform scaling, field
selection, error propagation) do not depend on floating-point rounding.
External library state (wgpu device/queue, the glyphon text renderer,
font system, atlas) is abstracted: results of external fallible calls are
passed in as explicit `Except` values, and the glue's handling of them is
what is verified.
-/

namespace EguiGlyphon

/-- `egui::Pos2` -/
structure Pos2 where
  x : ℚ
  y : ℚ
deriving DecidableEq

/-- `egui::Vec2` -/
structure Vec2 where
  x : ℚ
  y : ℚ
deriving DecidableEq

/-- `egui::Rect`, stored as `min`/`max` corners, as in egui. -/
structure Rect where
  min : Pos2
  max : Pos2
deriving DecidableEq

/-- `Pos2::ZERO` -/
def Pos2.zero : Pos2 := ⟨0, 0⟩

/-- `Rect::from_min_size(min, size)`: `max = min + size`. -/
def Rect.from_min_size (min : Pos2) (size : Vec2) : Rect :=
  ⟨min, ⟨min.x + size.x, min.y + size.y⟩⟩

/-- `impl Mul<f32> for Rect` in egui: both corners scaled componentwise. -/
def Rect.mulScalar (r : Rect) (s : ℚ) : Rect :=
  ⟨⟨r.min.x * s, r.min.y * s⟩, ⟨r.max.x * s, r.max.y * s⟩⟩

/-- `Rect::left` -/
def Rect.left (r : Rect) : ℚ := r.min.x

/-- `Rect::top` -/
def Rect.top (r : Rect) : ℚ := r.min.y

/-- `Rect::right` -/
def Rect.right (r : Rect) : ℚ := r.max.x

/-- `Rect::bottom` -/
def Rect.bottom (r : Rect) : ℚ := r.max.y

/-- `Rect::width` -/
def Rect.width (r : Rect) : ℚ := r.max.x - r.min.x

/-- `Rect::height` -/
def Rect.height (r : Rect) : ℚ := r.max.y - r.min.y

/-- One `glyphon::LayoutRun`: the two fields `measure_buffer` reads. -/
structure LayoutRun where
  rtl : Bool
  line_w : ℚ
deriving DecidableEq

/-- `glyphon::Metrics` -/
structure Metrics where
  font_size : ℚ
  line_height : ℚ
deriving DecidableEq

/-- A shaped `glyphon::Buffer`, restricted to the state `measure_buffer`
reads: the layout runs, the metrics, and the configured maximum size
(`Buffer::size()` returns `(Option<f32>, Option<f32>)`). -/
structure Buffer where
  layout_runs : List LayoutRun
  metrics : Metrics
  size_width : Option ℚ
  size_height : Option ℚ
deriving DecidableEq

/-- `Buffer::size()` -/
def Buffer.size (b : Buffer) : Option ℚ × Option ℚ := (b.size_width, b.size_height)

/-- The closure of the `fold` in `measure_buffer`, with the captured `rtl`
flag made an explicit accumulator component: accumulator is
`(rtl, width, total_lines)`. -/
def measure_fold_step (acc : Bool × ℚ × Nat) (run : LayoutRun) : Bool × ℚ × Nat :=
  (acc.1 || run.rtl, max run.line_w acc.2.1, acc.2.2 + 1)

/-- `measure_buffer` (src/lib.rs lines 27-49). -/
def measure_buffer (buffer : Buffer) : Rect :=
  let acc := buffer.layout_runs.foldl measure_fold_step (false, 0, 0)
  let rtl := acc.1
  let width := acc.2.1
  let total_lines := acc.2.2
  let height := (total_lines : ℚ) * buffer.metrics.line_height
  let max_width := (buffer.size).1.getD width
  let max_height := (buffer.size).2.getD height
  let width' := if rtl then max_width else min width max_width
  let height' := min height max_height
  Rect.from_min_size Pos2.zero ⟨width', height'⟩

/-- The "natural" width computed by `measure_buffer`'s fold (maximum of the
run line widths, with the fold's initial value `0.0`). -/
def natural_width (b : Buffer) : ℚ :=
  (b.layout_runs.foldl measure_fold_step (false, 0, 0)).2.1

/-- `glyphon::Color` (a packed rgba value). -/
structure Color where
  rgba : Nat
deriving DecidableEq

/-- `egui::Context`, restricted to what `BufferWithTextArea::new` reads. -/
structure Context where
  pixels_per_point : ℚ

/-- `BufferWithTextArea` (src/lib.rs lines 18-24). The `Arc<RwLock<Buffer>>`
handle is modelled by the buffer value it designates. -/
structure BufferWithTextArea where
  buffer : Buffer
  rect : Rect
  scale : ℚ
  opacity : ℚ
  default_color : Color
deriving DecidableEq

/-- `BufferWithTextArea::new` (src/lib.rs lines 52-68). -/
def BufferWithTextArea.new (buffer : Buffer) (rect : Rect) (opacity : ℚ)
    (default_color : Color) (ctx : Context) : BufferWithTextArea :=
  let ppi := ctx.pixels_per_point
  let rect := Rect.mulScalar rect ppi
  ⟨buffer, rect, ppi, opacity, default_color⟩

/-- Rust `f32 as i32`: truncation toward zero, saturating at the i32 range. -/
def f32_as_i32 (q : ℚ) : Int :=
  let t : Int := if 0 ≤ q then ⌊q⌋ else ⌈q⌉
  max (-(2 ^ 31)) (min (2 ^ 31 - 1) t)

/-- `glyphon::TextBounds` -/
structure TextBounds where
  left : Int
  top : Int
  right : Int
  bottom : Int
deriving DecidableEq

/-- `glyphon::TextArea` as built by `GlyphonRendererCallback::prepare`
(src/lib.rs lines 160-173); the buffer field holds the read-locked
buffer contents. -/
structure TextArea where
  custom_glyphs : List Unit
  buffer : Buffer
  left : ℚ
  top : ℚ
  scale : ℚ
  bounds : TextBounds
  default_color : Color
deriving DecidableEq

/-- The closure at src/lib.rs lines 160-173: build one `TextArea` from a
`BufferWithTextArea` and the corresponding read-locked buffer. -/
def textAreaOf (b : BufferWithTextArea) (bref : Buffer) : TextArea :=
  { custom_glyphs := []
    buffer := bref
    left := b.rect.left
    top := b.rect.top
    scale := b.scale
    bounds :=
      { left := f32_as_i32 b.rect.left
        top := f32_as_i32 b.rect.top
        right := f32_as_i32 b.rect.right
        bottom := f32_as_i32 b.rect.bottom }
    default_color := b.default_color }

/-- The descriptor-building part of `GlyphonRendererCallback::prepare`
(src/lib.rs lines 155-174): collect the read locks, then zip each
`BufferWithTextArea` with its read guard (`bufrefs.get(i).unwrap()`). -/
def callback_text_areas (buffers : List BufferWithTextArea) : List TextArea :=
  let bufrefs : List Buffer := buffers.map fun b => b.buffer
  List.zipWith textAreaOf buffers bufrefs

/-- `glyphon::PrepareError` (GPU resource allocation rejected). -/
inductive PrepareError where
  | atlasFull
deriving DecidableEq

/-- `glyphon::RenderError` -/
inductive RenderError where
  | removedFromAtlas
deriving DecidableEq

/-- `glyphon::Resolution` -/
structure Resolution where
  width : Nat
  height : Nat
deriving DecidableEq

/-- `GlyphonRenderer` state, restricted to what the glue itself changes:
the viewport's last-updated resolution. The font system, swash cache,
atlas and text renderer are external library state. -/
structure GlyphonRenderer where
  viewport : Option Resolution
deriving DecidableEq

/-- `GlyphonRenderer::insert` (src/lib.rs lines 82-110): overwrites the
per-context resource table slot with a fresh instance. -/
def GlyphonRenderer.insert (_resources : Option GlyphonRenderer) : Option GlyphonRenderer :=
  some { viewport := none }

/-- `GlyphonRenderer::prepare` (src/lib.rs lines 112-129): updates the
viewport to the screen resolution, then returns the result of the
external `text_renderer.prepare` call unchanged. That external result is
passed in as `text_renderer_result`. -/
def GlyphonRenderer.prepare (r : GlyphonRenderer) (screen_resolution : Resolution)
    (text_renderer_result : Except PrepareError Unit) :
    GlyphonRenderer × Except PrepareError Unit :=
  ({ r with viewport := some screen_resolution }, text_renderer_result)

/-- Outcome of a frame-callback phase: normal return, an `unwrap` panic on
an error value, or an `unwrap` panic on the missing renderer resource. -/
inductive FrameResult (ε : Type) (α : Type) where
  | ok : α → FrameResult ε α
  | panicked : ε → FrameResult ε α
  | missingRenderer : FrameResult ε α
deriving DecidableEq

/-- `GlyphonRendererCallback::prepare` (src/lib.rs lines 145-187):
`resources.get_mut().unwrap()` panics when no renderer was inserted;
otherwise the text areas are built, the renderer's prepare is delegated
to, its error is `unwrap`ed (panic), and an empty command-buffer list is
returned on success. -/
def GlyphonRendererCallback.prepare (resources : Option GlyphonRenderer)
    (screen_descriptor : Resolution) (buffers : List BufferWithTextArea)
    (text_renderer_result : Except PrepareError Unit) :
    FrameResult PrepareError (List Unit) :=
  match resources with
  | none => FrameResult.missingRenderer
  | some glyphon_renderer =>
      let _text_areas := callback_text_areas buffers
      match (glyphon_renderer.prepare screen_descriptor text_renderer_result).2 with
      | Except.error e => FrameResult.panicked e
      | Except.ok _ => FrameResult.ok []

/-- `GlyphonRendererCallback::paint` (src/lib.rs lines 189-205):
`resources.get().unwrap()` panics when no renderer was inserted;
otherwise the external render result is `unwrap`ed. -/
def GlyphonRendererCallback.paint (resources : Option GlyphonRenderer)
    (render_result : Except RenderError Unit) : FrameResult RenderError Unit :=
  match resources with
  | none => FrameResult.missingRenderer
  | some _ =>
      match render_result with
      | Except.error e => FrameResult.panicked e
      | Except.ok _ => FrameResult.ok ()

/-- Everything `GlyphonRendererCallback::prepare` reads from a
`BufferWithTextArea` other than `opacity`. -/
def exceptOpacity (b : BufferWithTextArea) : Buffer × Rect × ℚ × Color :=
  (b.buffer, b.rect, b.scale, b.default_color)

/-! ## Characterisation lemmas for the measurement fold -/

theorem measure_foldl_fst (runs : List LayoutRun) (acc : Bool × ℚ × Nat) :
    (runs.foldl measure_fold_step acc).1 = (acc.1 || runs.any fun r => r.rtl) := by
  induction runs generalizing acc with
  | nil => simp
  | cons r rs ih =>
      simp only [List.foldl_cons, List.any_cons, ih, measure_fold_step, Bool.or_assoc]

theorem measure_foldl_lines (runs : List LayoutRun) (acc : Bool × ℚ × Nat) :
    (runs.foldl measure_fold_step acc).2.2 = acc.2.2 + runs.length := by
  induction runs generalizing acc with
  | nil => simp
  | cons r rs ih =>
      simp only [List.foldl_cons, ih, measure_fold_step, List.length_cons]
      omega

theorem callback_text_areas_cons (b : BufferWithTextArea) (bs : List BufferWithTextArea) :
    callback_text_areas (b :: bs) = textAreaOf b b.buffer :: callback_text_areas bs := rfl

/-- Closed form of `measure_buffer`: the fold is replaced by its
characterisation (`any rtl`, the natural width, the run count). -/
theorem measure_buffer_eq (b : Buffer) :
    measure_buffer b = Rect.from_min_size Pos2.zero
      ⟨if b.layout_runs.any (fun r => r.rtl) then b.size_width.getD (natural_width b)
          else min (natural_width b) (b.size_width.getD (natural_width b)),
        min ((b.layout_runs.length : ℚ) * b.metrics.line_height)
          (b.size_height.getD ((b.layout_runs.length : ℚ) * b.metrics.line_height))⟩ := by
  have h1 : (b.layout_runs.foldl measure_fold_step (false, 0, 0)).1
      = b.layout_runs.any fun r => r.rtl := by
    rw [measure_foldl_fst, Bool.false_or]
  have h2 : (b.layout_runs.foldl measure_fold_step (false, 0, 0)).2.2
      = b.layout_runs.length := by
    rw [measure_foldl_lines]
    show 0 + b.layout_runs.length = b.layout_runs.length
    omega
  have h3 : (b.layout_runs.foldl measure_fold_step (false, 0, 0)).2.1
      = natural_width b := rfl
  have h4 : (Buffer.size b).1 = b.size_width := rfl
  have h5 : (Buffer.size b).2 = b.size_height := rfl
  unfold measure_buffer
  simp only [h1, h2, h3, h4, h5]

/-- A configured maximum dimension that is unset or non-negative. -/
def nonneg_or_unset (o : Option ℚ) : Prop :=
  match o with
  | none => True
  | some w => 0 ≤ w

/-! ## Claims -/

/-- Claim C1: for every buffer containing at least one right-to-left layout
run and having a configured maximum width, `measure_buffer` returns a
rectangle whose width equals the configured maximum width exactly,
regardless of the natural widths of the runs. -/
theorem measure_buffer_rtl_uses_max_width (b : Buffer) (w : ℚ)
    (hw : b.size_width = some w)
    (hrtl : (b.layout_runs.any fun r => r.rtl) = true) :
    (measure_buffer b).width = w := by
  rw [measure_buffer_eq]
  simp [hrtl, hw, Rect.width, Rect.from_min_size, Pos2.zero]

theorem measure_buffer_rtl_uses_max_width_witness :
    ((⟨[⟨true, 100⟩], ⟨16, 20⟩, some 50, none⟩ : Buffer).size_width = some 50) ∧
    (((⟨[⟨true, 100⟩], ⟨16, 20⟩, some 50, none⟩ : Buffer).layout_runs.any
        fun r => r.rtl) = true) ∧
    (measure_buffer ⟨[⟨true, 100⟩], ⟨16, 20⟩, some 50, none⟩).width = 50 :=
  ⟨rfl, rfl, measure_buffer_rtl_uses_max_width _ 50 rfl rfl⟩

/-- Claim C2: for every buffer whose configured maximum width is smaller
than its natural text width (the fold-computed maximum of the run line
widths) and with no right-to-left runs, `measure_buffer` returns a width
equal to the natural width clamped to the configured maximum, and this
width never exceeds the configured maximum. -/
theorem measure_buffer_ltr_clamped (b : Buffer) (m : ℚ)
    (hw : b.size_width = some m)
    (hltr : (b.layout_runs.any fun r => r.rtl) = false)
    (hlt : m < natural_width b) :
    (measure_buffer b).width = min (natural_width b) m ∧
    (measure_buffer b).width ≤ m := by
  have hmain : (measure_buffer b).width = min (natural_width b) m := by
    rw [measure_buffer_eq]
    simp [hltr, hw, Rect.width, Rect.from_min_size, Pos2.zero]
  exact ⟨hmain, hmain ▸ min_le_right _ _⟩

theorem measure_buffer_ltr_clamped_witness :
    ((⟨[⟨false, 100⟩], ⟨16, 20⟩, some 60, none⟩ : Buffer).size_width = some 60) ∧
    (((⟨[⟨false, 100⟩], ⟨16, 20⟩, some 60, none⟩ : Buffer).layout_runs.any
        fun r => r.rtl) = false) ∧
    (60 : ℚ) < natural_width ⟨[⟨false, 100⟩], ⟨16, 20⟩, some 60, none⟩ ∧
    ((measure_buffer ⟨[⟨false, 100⟩], ⟨16, 20⟩, some 60, none⟩).width
        = min (natural_width ⟨[⟨false, 100⟩], ⟨16, 20⟩, some 60, none⟩) 60 ∧
     (measure_buffer ⟨[⟨false, 100⟩], ⟨16, 20⟩, some 60, none⟩).width ≤ 60) :=
  ⟨rfl, rfl, by norm_num [natural_width, measure_fold_step],
   measure_buffer_ltr_clamped _ 60 rfl rfl (by norm_num [natural_width, measure_fold_step])⟩

/-- Claim C3: for every buffer with no configured maximum size and N layout
runs, with line height H from the buffer's metrics, `measure_buffer`
returns a rectangle of height exactly N times H. -/
theorem measure_buffer_height_lines (b : Buffer)
    (hw : b.size_width = none) (hh : b.size_height = none) :
    (measure_buffer b).height = (b.layout_runs.length : ℚ) * b.metrics.line_height := by
  rw [measure_buffer_eq]
  simp [hh, Rect.height, Rect.from_min_size, Pos2.zero]

theorem measure_buffer_height_lines_witness :
    ((⟨[⟨false, 10⟩, ⟨false, 30⟩], ⟨16, 20⟩, none, none⟩ : Buffer).size_width = none) ∧
    ((⟨[⟨false, 10⟩, ⟨false, 30⟩], ⟨16, 20⟩, none, none⟩ : Buffer).size_height = none) ∧
    (measure_buffer ⟨[⟨false, 10⟩, ⟨false, 30⟩], ⟨16, 20⟩, none, none⟩).height
      = (((⟨[⟨false, 10⟩, ⟨false, 30⟩], ⟨16, 20⟩, none, none⟩ : Buffer).layout_runs.length : ℚ)
          * (⟨[⟨false, 10⟩, ⟨false, 30⟩], ⟨16, 20⟩, none, none⟩ : Buffer).metrics.line_height) :=
  ⟨rfl, rfl, measure_buffer_height_lines _ rfl rfl⟩

/-- Claim C4: `BufferWithTextArea::new` stores the logical rectangle scaled
uniformly by the context's pixel-per-point ratio in both dimensions, and
stores that ratio as the `scale` field. -/
theorem bufferWithTextArea_new_fields (buffer : Buffer) (rect : Rect) (opacity : ℚ)
    (default_color : Color) (ctx : Context) :
    (BufferWithTextArea.new buffer rect opacity default_color ctx).rect.min.x
        = rect.min.x * ctx.pixels_per_point ∧
    (BufferWithTextArea.new buffer rect opacity default_color ctx).rect.min.y
        = rect.min.y * ctx.pixels_per_point ∧
    (BufferWithTextArea.new buffer rect opacity default_color ctx).rect.max.x
        = rect.max.x * ctx.pixels_per_point ∧
    (BufferWithTextArea.new buffer rect opacity default_color ctx).rect.max.y
        = rect.max.y * ctx.pixels_per_point ∧
    (BufferWithTextArea.new buffer rect opacity default_color ctx).scale
        = ctx.pixels_per_point :=
  ⟨rfl, rfl, rfl, rfl, rfl⟩

/-- Claim C5: the text-area descriptors built by
`GlyphonRendererCallback::prepare` do not depend on the `opacity` field:
two batches identical except for their opacity values produce identical
descriptors. -/
theorem callback_text_areas_opacity_independent (bs1 bs2 : List BufferWithTextArea)
    (h : bs1.map exceptOpacity = bs2.map exceptOpacity) :
    callback_text_areas bs1 = callback_text_areas bs2 := by
  induction bs1 generalizing bs2 with
  | nil =>
      cases bs2 with
      | nil => rfl
      | cons b bs => simp at h
  | cons a as ih =>
      cases bs2 with
      | nil => simp at h
      | cons b bs =>
          simp only [List.map_cons, List.cons.injEq] at h
          obtain ⟨h1, h2⟩ := h
          obtain ⟨hb, hr, hs, hc⟩ : a.buffer = b.buffer ∧ a.rect = b.rect ∧
              a.scale = b.scale ∧ a.default_color = b.default_color := by
            simpa [exceptOpacity, Prod.ext_iff] using h1
          rw [callback_text_areas_cons, callback_text_areas_cons, ih bs h2]
          simp [textAreaOf, hb, hr, hs, hc]

theorem callback_text_areas_opacity_independent_witness :
    ([(⟨⟨[], ⟨16, 20⟩, none, none⟩, ⟨⟨0, 0⟩, ⟨8, 4⟩⟩, 1, 1, ⟨255⟩⟩ : BufferWithTextArea)].map
        exceptOpacity
      = [(⟨⟨[], ⟨16, 20⟩, none, none⟩, ⟨⟨0, 0⟩, ⟨8, 4⟩⟩, 1, 2, ⟨255⟩⟩ : BufferWithTextArea)].map
        exceptOpacity) ∧
    callback_text_areas [⟨⟨[], ⟨16, 20⟩, none, none⟩, ⟨⟨0, 0⟩, ⟨8, 4⟩⟩, 1, 1, ⟨255⟩⟩]
      = callback_text_areas [⟨⟨[], ⟨16, 20⟩, none, none⟩, ⟨⟨0, 0⟩, ⟨8, 4⟩⟩, 1, 2, ⟨255⟩⟩] :=
  ⟨rfl, callback_text_areas_opacity_independent _ _ rfl⟩

/-- Claim C6: when the backend's prepare step rejects GPU resource
allocation, `GlyphonRenderer::prepare` returns that `PrepareError`
unchanged, and `GlyphonRendererCallback::prepare` treats the failure as
terminating for the frame (an `unwrap` panic, never a normal return). -/
theorem prepare_error_propagated (r : GlyphonRenderer) (res : Resolution)
    (sd : Resolution) (bs : List BufferWithTextArea) (e : PrepareError) :
    (GlyphonRenderer.prepare r res (Except.error e)).2 = Except.error e ∧
    GlyphonRendererCallback.prepare (some r) sd bs (Except.error e)
        = FrameResult.panicked e :=
  ⟨rfl, rfl⟩

/-- Claim C7: when `GlyphonRenderer::insert` was never called (the resource
table holds no renderer), both callback phases abort deterministically on
the missing-resource `unwrap`, never producing a default renderer. -/
theorem missing_renderer_lookup_aborts (sd : Resolution) (bs : List BufferWithTextArea)
    (tr : Except PrepareError Unit) (rr : Except RenderError Unit) :
    GlyphonRendererCallback.prepare none sd bs tr
        = FrameResult.missingRenderer ∧
    GlyphonRendererCallback.paint none rr = FrameResult.missingRenderer :=
  ⟨rfl, rfl⟩

/-- Claim C8: `measure_buffer` returns a rectangle whose minimum corner is
the origin, and is a deterministic pure function of the buffer state (the
embedding is a total function on the buffer value; the Rust source takes
`&Buffer` and only reads it). -/
theorem measure_buffer_origin_deterministic (b b' : Buffer) (h : b' = b) :
    measure_buffer b' = measure_buffer b ∧ (measure_buffer b).min = Pos2.zero :=
  ⟨by rw [h], rfl⟩

theorem measure_buffer_origin_deterministic_witness :
    ((⟨[⟨false, 7⟩], ⟨16, 20⟩, none, none⟩ : Buffer)
        = ⟨[⟨false, 7⟩], ⟨16, 20⟩, none, none⟩) ∧
    (measure_buffer ⟨[⟨false, 7⟩], ⟨16, 20⟩, none, none⟩
        = measure_buffer ⟨[⟨false, 7⟩], ⟨16, 20⟩, none, none⟩ ∧
      (measure_buffer ⟨[⟨false, 7⟩], ⟨16, 20⟩, none, none⟩).min = Pos2.zero) :=
  ⟨rfl, measure_buffer_origin_deterministic _ _ rfl⟩

/-- Claim C9: for every buffer with zero layout runs whose configured
maximum width and height are each unset or non-negative, `measure_buffer`
returns the zero-size rectangle at the origin. -/
theorem measure_buffer_no_runs_zero (b : Buffer)
    (h0 : b.layout_runs = [])
    (hw : nonneg_or_unset b.size_width)
    (hh : nonneg_or_unset b.size_height) :
    measure_buffer b = ⟨⟨0, 0⟩, ⟨0, 0⟩⟩ := by
  unfold measure_buffer
  rw [h0]
  simp only [List.foldl_nil, Buffer.size, Nat.cast_zero, zero_mul]
  cases hsw : b.size_width with
  | none =>
      cases hsh : b.size_height with
      | none => simp [Rect.from_min_size, Pos2.zero]
      | some hgt =>
          have : (0 : ℚ) ≤ hgt := by
            have := hh
            rw [hsh] at this
            exact this
          simp [Rect.from_min_size, Pos2.zero, min_eq_left this]
  | some wdt =>
      have hw0 : (0 : ℚ) ≤ wdt := by
        have := hw
        rw [hsw] at this
        exact this
      cases hsh : b.size_height with
      | none => simp [Rect.from_min_size, Pos2.zero, min_eq_left hw0]
      | some hgt =>
          have hh0 : (0 : ℚ) ≤ hgt := by
            have := hh
            rw [hsh] at this
            exact this
          simp [Rect.from_min_size, Pos2.zero, min_eq_left hw0, min_eq_left hh0]

theorem measure_buffer_no_runs_zero_witness :
    ((⟨[], ⟨16, 20⟩, some 5, some 7⟩ : Buffer).layout_runs = []) ∧
    nonneg_or_unset (⟨[], ⟨16, 20⟩, some 5, some 7⟩ : Buffer).size_width ∧
    nonneg_or_unset (⟨[], ⟨16, 20⟩, some 5, some 7⟩ : Buffer).size_height ∧
    measure_buffer ⟨[], ⟨16, 20⟩, some 5, some 7⟩ = ⟨⟨0, 0⟩, ⟨0, 0⟩⟩ :=
  ⟨rfl, by norm_num [nonneg_or_unset], by norm_num [nonneg_or_unset],
   measure_buffer_no_runs_zero _ rfl (by norm_num [nonneg_or_unset])
     (by norm_num [nonneg_or_unset])⟩

end EguiGlyphon
